import Mathlib

/-!
Shallow embedding of the medical scheduling repository
(`app/utils/calendar_manager.py` and `app/agents/scheduler_agent.py`),
together with proofs about its slot-allocation and dialogue logic.

Python dict-based records are modelled as Lean structures; fields that the
code reads with `dict.get(key, default)` and that can be absent are `Option`
fields.  File persistence (`_load_appointments` / `_save_appointments`) is
modelled as explicit state passing: every mutating operation takes the list
of stored appointments and returns the updated list.  `datetime.now()` and
`date.today()` are ambient inputs and are passed as explicit parameters.
-/

namespace MedSched

/-- A digit character's numeric value, `none` for non-digits
(models the character classes of CPython's `_strptime` regexes). -/
def digitVal (c : Char) : Option Nat :=
  if c.isDigit then some (c.toNat - 48) else none

/-- Python `pat in s` substring test on character lists. -/
def subOccurs (pat : List Char) : List Char → Bool
  | [] => pat.isEmpty
  | c :: rest => pat.isPrefixOf (c :: rest) || subOccurs pat rest

/-- Python `pat in s` substring test on strings. -/
def containsPy (s pat : String) : Bool :=
  subOccurs pat.data s.data

/-- Python whitespace: the characters `str.strip` and `str.split` treat as
separators. -/
def pyIsSpace (c : Char) : Bool :=
  c == ' ' || c == '\t' || c == '\n' || c == '\r' || c == '\x0b' || c == '\x0c'

/-- ASCII uppercase conversion. -/
def pyUpperChar (c : Char) : Char :=
  if 'a' ≤ c && c ≤ 'z' then Char.ofNat (c.toNat - 32) else c

/-- ASCII lowercase conversion (Python `str.lower` on the ASCII data this
system handles). -/
def pyLowerChar (c : Char) : Char :=
  if 'A' ≤ c && c ≤ 'Z' then Char.ofNat (c.toNat + 32) else c

/-- Python `str.lower()`. -/
def pyLower (s : String) : String :=
  String.mk (s.data.map pyLowerChar)

/-- Python `str.strip()`. -/
def pyStrip (s : String) : String :=
  String.mk (((s.data.dropWhile pyIsSpace).reverse.dropWhile pyIsSpace).reverse)

/-- Python `str.startswith`. -/
def pyStartsWith (s pat : String) : Bool :=
  pat.data.isPrefixOf s.data

/-- Python slice `s[n:]` (drop the first `n` characters). -/
def pyDropChars (s : String) (n : Nat) : String :=
  String.mk (s.data.drop n)

/-- Fuel-bounded worker for Python `str.replace(pat, rep)` (each step
consumes at least one character, so the input length is enough fuel). -/
def replaceFuel (pat rep : List Char) : Nat → List Char → List Char
  | 0, l => l
  | _ + 1, [] => []
  | fuel + 1, c :: rest =>
    if !pat.isEmpty && pat.isPrefixOf (c :: rest) then
      rep ++ replaceFuel pat rep fuel (rest.drop (pat.length - 1))
    else
      c :: replaceFuel pat rep fuel rest

/-- Python `str.replace` (all occurrences, left to right). -/
def pyReplace (s pat rep : String) : String :=
  String.mk (replaceFuel pat.data rep.data s.data.length s.data)

/-- Worker for Python `s.split()`: accumulate the current word (reversed). -/
def splitWsAux : List Char → List Char → List String
  | cur, [] => if cur.isEmpty then [] else [String.mk cur.reverse]
  | cur, c :: rest =>
    if pyIsSpace c then
      if cur.isEmpty then splitWsAux [] rest
      else String.mk cur.reverse :: splitWsAux [] rest
    else
      splitWsAux (c :: cur) rest

/-- Python `s.split()`: split on whitespace runs, dropping empty pieces. -/
def splitWs (s : String) : List String :=
  splitWsAux [] s.data

/-- Python `" ".join(parts)`. -/
def joinSpace (parts : List String) : String :=
  match parts with
  | [] => ""
  | p :: rest => rest.foldl (fun acc q => acc ++ " " ++ q) p

/-- Python `f"{n:02d}"` for the slot hour. -/
def pad2 (n : Nat) : String :=
  (if n < 10 then "0" else "") ++ toString n

/-- The slot string `f"{current_hour:02d}:00"` built by
`CalendarManager.get_available_slots`. -/
def fmtHour (h : Nat) : String :=
  pad2 h ++ ":00"

/-- Python `f"{n:04d}"` used for appointment and patient ids. -/
def pad4 (n : Nat) : String :=
  (if n < 10 then "000" else if n < 100 then "00" else if n < 1000 then "0" else "") ++ toString n

/-! ### Dates

`datetime.strptime(date_str, "%Y-%m-%d").date()` and `date.weekday()` are
modelled exactly: `%Y` matches exactly four digits, `%m` matches
`1[0-2]|0[1-9]|[1-9]`, `%d` matches `3[01]|[12]\d|0[1-9]|[1-9]`, the whole
string must be consumed, and the `datetime` constructor then rejects
out-of-range days (for example February 30) and year 0. -/

/-- Leap year (proleptic Gregorian, as Python's `datetime.date`). -/
def isLeap (y : Nat) : Bool :=
  y % 4 == 0 && (y % 100 != 0 || y % 400 == 0)

/-- Number of days in a month. -/
def daysInMonth (y m : Nat) : Nat :=
  if m == 2 then (if isLeap y then 29 else 28)
  else if m == 4 || m == 6 || m == 9 || m == 11 then 30
  else 31

/-- Days in the months strictly before month `m`. -/
def daysBeforeMonth (y m : Nat) : Nat :=
  (List.range (m - 1)).foldl (fun acc i => acc + daysInMonth y (i + 1)) 0

/-- A calendar date as a (year, month, day) triple. -/
structure Date where
  year : Nat
  month : Nat
  day : Nat
deriving DecidableEq, Repr

/-- Proleptic-Gregorian day number, with 0001-01-01 ↦ 1 (Python's
`date.toordinal`). -/
def dayNumber (d : Date) : Nat :=
  365 * (d.year - 1) + (d.year - 1) / 4 + (d.year - 1) / 400
    + daysBeforeMonth d.year d.month + d.day - (d.year - 1) / 100

/-- Python `date.weekday()`: Monday = 0 … Sunday = 6. -/
def weekday (d : Date) : Nat :=
  (dayNumber d + 6) % 7

/-- Parse a 1-2 digit field following one of `_strptime`'s alternations:
a two-digit match is accepted when `valid2` holds for the two digits,
otherwise a single nonzero digit is consumed. -/
def parse2Digit (valid2 : Nat → Nat → Bool) : List Char → Option (Nat × List Char)
  | [] => none
  | [c1] =>
    match digitVal c1 with
    | some d1 => if 1 ≤ d1 then some (d1, []) else none
    | none => none
  | c1 :: c2 :: rest =>
    match digitVal c1, digitVal c2 with
    | some d1, some d2 =>
        if valid2 d1 d2 then some (d1 * 10 + d2, rest)
        else if 1 ≤ d1 then some (d1, c2 :: rest) else none
    | some d1, none => if 1 ≤ d1 then some (d1, c2 :: rest) else none
    | none, _ => none

/-- `%m`: `1[0-2]|0[1-9]|[1-9]`. -/
def monthOk2 (d1 d2 : Nat) : Bool :=
  (d1 == 1 && d2 ≤ 2) || (d1 == 0 && 1 ≤ d2)

/-- `%d`: `3[01]|[12]\d|0[1-9]|[1-9]`. -/
def dayOk2 (d1 d2 : Nat) : Bool :=
  (d1 == 3 && d2 ≤ 1) || d1 == 1 || d1 == 2 || (d1 == 0 && 1 ≤ d2)

/-- `datetime.strptime(s, "%Y-%m-%d")` followed by the `date` constructor's
range validation; `none` models the `ValueError` that
`CalendarManager.get_available_slots` catches. -/
def parseDateYMD (s : String) : Option Date :=
  match s.data with
  | y1 :: y2 :: y3 :: y4 :: '-' :: rest =>
    match digitVal y1, digitVal y2, digitVal y3, digitVal y4 with
    | some a, some b, some c, some d =>
      let y := ((a * 10 + b) * 10 + c) * 10 + d
      match parse2Digit monthOk2 rest with
      | some (m, rest2) =>
        match rest2 with
        | '-' :: rest3 =>
          match parse2Digit dayOk2 rest3 with
          | some (dd, rest4) =>
            if rest4 = [] ∧ 1 ≤ y ∧ dd ≤ daysInMonth y m then
              some ⟨y, m, dd⟩
            else none
          | none => none
        | _ => none
      | none => none
    | _, _, _, _ => none
  | _ => none

/-! ### Data model -/

/-- An appointment record (the dict persisted in `appointments.json`).
Fields that `CalendarManager.book_slot` always writes but
`SchedulerAgent.book_appointment` omits are `Option`s; the code reads them
with `dict.get(key, default)`. -/
structure Appointment where
  appointment_id : String
  patient_id : Option String
  patient_name : String
  doctor_id : String
  date : String
  time : String
  status : String
  created_at : String
  duration_minutes : Option Nat
  doctor_name : Option String
  specialty : Option String
  appt_type : Option String
  calendar_event_id : Option String
  location : Option String
  notes : Option String
  rescheduled_at : Option String
  cancelled_at : Option String
  cancellation_reason : Option String
deriving DecidableEq, Repr

/-- A doctor record from `doctors.json` (the fields the scheduling code
reads; remaining generated fields are never consulted). -/
structure Doctor where
  doctor_id : String
  first_name : String
  last_name : String
  specialty : String
  location : String
deriving DecidableEq, Repr

/-- The `patient_data` dict passed to `CalendarManager.book_slot`;
every field is read with `dict.get`. -/
structure PatientData where
  patient_id : Option String
  name : Option String
  first_name : Option String
  last_name : Option String
  ptype : Option String
  notes : Option String
deriving DecidableEq, Repr

/-- Result dict of a `CalendarManager` mutation: `success`, optional
`appointment`, and `message`. -/
structure OpResult where
  success : Bool
  appointment : Option Appointment
  message : String
deriving DecidableEq, Repr

/-! ### CalendarManager.get_available_slots -/

/-- The `while current_hour < 17` loop of `get_available_slots`:
skip the lunch hour (`12 <= current_hour < 13`), emit `f"{h:02d}:00"` when
no appointment in `existing` occupies it, and advance by
`max(1, duration_minutes // 60)`.  `fuel` bounds the iteration count
(each pass increases the hour by at least one, so 17 suffices). -/
def slotLoop (existing : List Appointment) (step : Nat) : Nat → Nat → List String
  | 0, _ => []
  | fuel + 1, h =>
    if h < 17 then
      if 12 ≤ h ∧ h < 13 then
        slotLoop existing step fuel (h + 1)
      else
        if existing.any (fun a => a.time == fmtHour h) then
          slotLoop existing step fuel (h + step)
        else
          fmtHour h :: slotLoop existing step fuel (h + step)
    else []

/-- `CalendarManager.get_available_slots(doctor_id, date_str, duration_minutes)`.
`appointments` is the persisted store and `today` models `date.today()`.
Unparseable dates, non-working weekdays and non-future dates yield `[]`. -/
def get_available_slots (appointments : List Appointment) (today : Date)
    (doctor_id date_str : String) (duration_minutes : Nat) : List String :=
  match parseDateYMD date_str with
  | none => []
  | some target =>
    if weekday target ∈ [0, 1, 2, 3, 4] then
      if dayNumber target ≤ dayNumber today then []
      else
        slotLoop
          (appointments.filter (fun a => a.doctor_id == doctor_id && a.date == date_str))
          (max 1 (duration_minutes / 60)) 17 9
    else []

/-! ### CalendarManager mutations -/

/-- The appointment record built by `CalendarManager.book_slot`. -/
def mkBookedAppointment (appointments : List Appointment) (doctor : Doctor)
    (doctor_id date_str time_str : String) (patient_data : PatientData)
    (duration_minutes : Nat) (now : String) : Appointment :=
  { appointment_id := "APT" ++ pad4 (appointments.length + 1)
    patient_id := patient_data.patient_id
    patient_name :=
      pyStrip (patient_data.name.getD
        (patient_data.first_name.getD "" ++ " " ++ patient_data.last_name.getD ""))
    doctor_id := doctor_id
    doctor_name := some ("Dr. " ++ doctor.first_name ++ " " ++ doctor.last_name)
    specialty := some doctor.specialty
    date := date_str
    time := time_str
    duration_minutes := some duration_minutes
    status := "scheduled"
    appt_type := some (patient_data.ptype.getD "returning")
    created_at := now
    calendar_event_id := some ("cal_event_APT" ++ pad4 (appointments.length + 1))
    location := some doctor.location
    notes := some (patient_data.notes.getD "")
    rescheduled_at := none
    cancelled_at := none
    cancellation_reason := none }

/-- `CalendarManager.book_slot`: re-validate availability, look up the
doctor, append a fresh `scheduled` appointment.  Returns the result dict and
the updated store. -/
def book_slot (appointments : List Appointment) (doctors : List Doctor)
    (today : Date) (now : String) (doctor_id date_str time_str : String)
    (patient_data : PatientData) (duration_minutes : Nat) :
    OpResult × List Appointment :=
  if !((get_available_slots appointments today doctor_id date_str
      duration_minutes).contains time_str) then
    (⟨false, none, "Time slot " ++ time_str ++ " is not available on " ++ date_str⟩,
      appointments)
  else
    match doctors.find? (fun d => d.doctor_id == doctor_id) with
    | none =>
      (⟨false, none, "Doctor with ID " ++ doctor_id ++ " not found"⟩, appointments)
    | some doctor =>
      (⟨true,
          some (mkBookedAppointment appointments doctor doctor_id date_str time_str
            patient_data duration_minutes now),
          "Appointment successfully booked for " ++ date_str ++ " at " ++ time_str⟩,
        appointments
          ++ [mkBookedAppointment appointments doctor doctor_id date_str time_str
            patient_data duration_minutes now])

/-- Replace the first appointment whose id matches (the Python code finds
the first matching index and assigns `appointments[index] = updated`). -/
def replaceFirst (apt_id : String) (u : Appointment) :
    List Appointment → List Appointment
  | [] => []
  | a :: rest =>
    if a.appointment_id == apt_id then u :: rest
    else a :: replaceFirst apt_id u rest

/-- The updated record written by `reschedule_appointment`. -/
def mkRescheduled (apt : Appointment) (new_date new_time now : String) : Appointment :=
  { apt with
      date := new_date
      time := new_time
      rescheduled_at := some now
      status := "rescheduled" }

/-- `CalendarManager.reschedule_appointment`: find the appointment, check
the new slot against `get_available_slots` (computed over the whole store,
so the moved appointment is **not** excluded from its own conflict check),
then update date/time/status. -/
def reschedule_appointment (appointments : List Appointment) (today : Date)
    (now : String) (appointment_id new_date new_time : String) :
    OpResult × List Appointment :=
  match appointments.find? (fun a => a.appointment_id == appointment_id) with
  | none =>
    (⟨false, none, "Appointment " ++ appointment_id ++ " not found"⟩, appointments)
  | some apt =>
    if !((get_available_slots appointments today apt.doctor_id new_date
        (apt.duration_minutes.getD 30)).contains new_time) then
      (⟨false, none, "Time slot " ++ new_time ++ " is not available on " ++ new_date⟩,
        appointments)
    else
      (⟨true, some (mkRescheduled apt new_date new_time now),
          "Appointment rescheduled from " ++ apt.date ++ " " ++ apt.time ++ " to "
            ++ new_date ++ " " ++ new_time⟩,
        replaceFirst appointment_id (mkRescheduled apt new_date new_time now)
          appointments)

/-- The updated record written by `cancel_appointment`: set
`status = "cancelled"`, `cancelled_at = now`, `cancellation_reason = reason`
— also when the record is already cancelled. -/
def mkCancelled (apt : Appointment) (now reason : String) : Appointment :=
  { apt with
      status := "cancelled"
      cancelled_at := some now
      cancellation_reason := some reason }

/-- `CalendarManager.cancel_appointment`: find the appointment and write
the cancelled record back over it. -/
def cancel_appointment (appointments : List Appointment) (now : String)
    (appointment_id reason : String) : OpResult × List Appointment :=
  match appointments.find? (fun a => a.appointment_id == appointment_id) with
  | none =>
    (⟨false, none, "Appointment " ++ appointment_id ++ " not found"⟩, appointments)
  | some apt =>
    (⟨true, some (mkCancelled apt now reason),
        "Appointment " ++ appointment_id ++ " has been cancelled"⟩,
      replaceFirst appointment_id (mkCancelled apt now reason) appointments)

/-! ### Sequences of CalendarManager operations -/

/-- One `CalendarManager` mutation, with the ambient clock passed in. -/
inductive CalOp where
  | book (today : Date) (now : String) (doctor_id date_str time_str : String)
      (patient_data : PatientData) (duration_minutes : Nat)
  | resched (today : Date) (now : String) (appointment_id new_date new_time : String)
  | cancel (now : String) (appointment_id reason : String)

/-- Effect of one `CalendarManager` operation on the appointment store. -/
def applyCalOp (doctors : List Doctor) (appointments : List Appointment) :
    CalOp → List Appointment
  | .book today now d ds t p dur => (book_slot appointments doctors today now d ds t p dur).2
  | .resched today now id nd nt => (reschedule_appointment appointments today now id nd nt).2
  | .cancel now id r => (cancel_appointment appointments now id r).2

/-- Run a sequence of `CalendarManager` operations from the empty store. -/
def runCalOps (doctors : List Doctor) (ops : List CalOp) : List Appointment :=
  ops.foldl (applyCalOp doctors) []

/-- `a` occupies the (doctor, date, time) slot. -/
def matchesSlot (doctor_id date time : String) (a : Appointment) : Bool :=
  a.doctor_id == doctor_id && a.date == date && a.time == time

/-- Number of stored appointments of any status at a (doctor, date, time). -/
def countAt (l : List Appointment) (doctor_id date time : String) : Nat :=
  (l.filter (matchesSlot doctor_id date time)).length

/-- Number of stored non-cancelled appointments at a (doctor, date, time). -/
def countActiveAt (l : List Appointment) (doctor_id date time : String) : Nat :=
  (l.filter (fun a => matchesSlot doctor_id date time a && a.status != "cancelled")).length

/-! ### SchedulerAgent: patients and booking -/

/-- A patient record as created by `SchedulerAgent._find_or_create_patient`
(the constant-empty fields `phone`, `date_of_birth`, `address`,
`policy_number`, `group_number`, `medical_history`, `emergency_contact` are
written but never read by the scheduling logic and are omitted).
`is_new_patient` is read with `dict.get("is_new_patient", False)`. -/
structure Patient where
  patient_id : String
  first_name : String
  last_name : String
  email : String
  is_new_patient : Option Bool
  insurance_provider : String
deriving DecidableEq, Repr

/-- The match test of `_find_or_create_patient`: case-insensitive
first+last name equality, or case-insensitive email equality. -/
def matchPatient (first last patient_email : String) (p : Patient) : Bool :=
  (pyLower p.first_name == pyLower first && pyLower p.last_name == pyLower last)
    || pyLower p.email == pyLower patient_email

/-- The `for patient in patients` loop of `_find_or_create_patient`:
return the first match (with its email updated in place when a different
non-empty email was supplied), or `none`. -/
def findOrCreateLoop (patient_email : String) (matchp : Patient → Bool) :
    List Patient → Option (Patient × List Patient)
  | [] => none
  | p :: rest =>
    if matchp p then
      if patient_email ≠ "" && p.email ≠ patient_email then
        some ({ p with email := patient_email }, { p with email := patient_email } :: rest)
      else
        some (p, p :: rest)
    else
      match findOrCreateLoop patient_email matchp rest with
      | some (q, rest2) => some (q, p :: rest2)
      | none => none

/-- `SchedulerAgent._find_or_create_patient`, with the conversation-state
fields passed explicitly.  Returns the resolved patient and the updated
patient store. -/
def find_or_create_patient (patients : List Patient)
    (patient_name patient_email insurance_provider : String) :
    Patient × List Patient :=
  let name_parts := splitWs (pyStrip patient_name)
  let first_name := name_parts.headD "Unknown"
  let last_name := if name_parts.length > 1 then joinSpace name_parts.tail else "Patient"
  match findOrCreateLoop patient_email (matchPatient first_name last_name patient_email)
      patients with
  | some r => r
  | none =>
    let new_patient : Patient :=
      { patient_id := "P" ++ pad4 (patients.length + 1)
        first_name := first_name
        last_name := last_name
        email := patient_email
        is_new_patient := some true
        insurance_provider := insurance_provider }
    (new_patient, patients ++ [new_patient])

/-- The `specialty_mapping` dict of `_find_available_doctor`
(insertion order preserved, as Python dict iteration). -/
def specialtyMapping : List (String × String) :=
  [("cardiologist", "cardiology"), ("heart doctor", "cardiology"),
   ("heart", "cardiology"), ("dermatologist", "dermatology"),
   ("skin doctor", "dermatology"), ("skin", "dermatology"),
   ("general practitioner", "general practice"), ("gp", "general practice"),
   ("family doctor", "family medicine"), ("anesthesiologist", "anesthesiology")]

/-- `SchedulerAgent._find_available_doctor`, with the stored specialty
string passed explicitly. -/
def find_available_doctor (doctors : List Doctor) (specialty_state : String) :
    Option Doctor :=
  let specialty_mentioned := pyLower specialty_state
  let target_specialty :=
    match specialtyMapping.find? (fun ts => containsPy specialty_mentioned ts.1) with
    | some ts => ts.2
    | none => specialty_mentioned
  let byTarget :=
    if target_specialty ≠ "" then
      doctors.find? (fun d =>
        containsPy (pyLower d.specialty) target_specialty
          || containsPy target_specialty (pyLower d.specialty))
    else none
  match byTarget with
  | some d => some d
  | none =>
    if containsPy specialty_mentioned "cardio" then
      match doctors.find? (fun d => containsPy (pyLower d.specialty) "cardio") with
      | some d => some d
      | none => doctors.head?
    else doctors.head?

/-- `SchedulerAgent.book_appointment`: appends a fresh `scheduled`
appointment with **no** availability check. -/
def agent_book_appointment (appointments : List Appointment) (now : String)
    (patient : Patient) (doctor_id date time : String) :
    Appointment × List Appointment :=
  let appointment : Appointment :=
    { appointment_id := "APT" ++ pad4 (appointments.length + 1)
      patient_id := some patient.patient_id
      patient_name := patient.first_name ++ " " ++ patient.last_name
      doctor_id := doctor_id
      date := date
      time := time
      status := "scheduled"
      created_at := now
      duration_minutes := none
      doctor_name := none
      specialty := none
      appt_type := some (if patient.is_new_patient.getD false then "new_patient"
        else "returning_patient")
      calendar_event_id := none
      location := none
      notes := none
      rescheduled_at := none
      cancelled_at := none
      cancellation_reason := none }
  (appointment, appointments ++ [appointment])

/-! ### SchedulerAgent: intent analysis -/

/-- The analysis dict of `SchedulerAgent.analyze_user_input` (the entity
loops keep the last matching keyword, as repeated dict assignment does). -/
structure Analysis where
  intent : String
  date_preference : Option String
  time_preference : Option String
  specialty : Option String
deriving DecidableEq, Repr

/-- Last keyword of `keywords` occurring in `low` (each match overwrites
the entity slot in the source loop). -/
def lastMatch (low : String) (keywords : List String) : Option String :=
  keywords.foldl (fun acc k => if containsPy low k then some k else acc) none

/-- `SchedulerAgent.analyze_user_input`. -/
def analyze_user_input (user_input : String) : Analysis :=
  let input_lower := pyStrip (pyLower user_input)
  if input_lower == "" then
    ⟨"empty", none, none, none⟩
  else
    let intent :=
      if ["cancel", "reschedule", "change", "modify", "move"].any
          (containsPy input_lower) then "modify_appointment"
      else if ["schedule", "book", "see doctor", "new appointment"].any
          (containsPy input_lower) then "schedule_appointment"
      else if containsPy input_lower "appointment"
          && ["need", "want", "like"].any (containsPy input_lower) then
        "schedule_appointment"
      else if ["hello", "hi", "help", "start"].any (containsPy input_lower) then "greeting"
      else if ["yes", "yeah", "ok", "okay"].any (containsPy input_lower) then "confirmation"
      else if ["no", "nope", "nothing"].any (containsPy input_lower) then "negative"
      else "general"
    { intent := intent
      date_preference := lastMatch input_lower
        ["today", "tomorrow", "monday", "tuesday", "wednesday", "thursday", "friday"]
      time_preference := lastMatch input_lower
        ["morning", "afternoon", "evening", "9", "10", "11", "1", "2", "3", "4"]
      specialty := lastMatch input_lower
        ["cardiologist", "dermatologist", "neurologist", "orthopedist",
         "pediatrician", "psychiatrist", "general", "family"] }

/-! ### SchedulerAgent: conversation state and helpers -/

/-- The merged appointment+doctor dict built by
`_handle_appointment_lookup` and stored for later selection. -/
structure ApptInfo where
  apt : Appointment
  doctor_name : String
  doctor_specialty : String
deriving DecidableEq, Repr

/-- `SchedulerAgent.conversation_state`: each key of the Python dict is an
`Option` field (`none` = key absent); `appointments_to_modify` is read with
a `[]` default. -/
structure ConvState where
  conversation_step : Option String
  patient_name : Option String
  patient_email : Option String
  specialty : Option String
  date_preference : Option String
  time_preference : Option String
  insurance_provider : Option String
  modification_action : Option String
  appointments_to_modify : List ApptInfo
  appointment_to_reschedule : Option ApptInfo
deriving DecidableEq, Repr

/-- The empty conversation state (`self.conversation_state = {}`). -/
def emptyConv : ConvState :=
  ⟨none, none, none, none, none, none, none, none, [], none⟩

/-- Whole agent state: the three persisted stores plus the conversation. -/
structure AgentState where
  patients : List Patient
  appointments : List Appointment
  doctors : List Doctor
  conv : ConvState
deriving DecidableEq, Repr

/-- First index of `pat` in `s` (Python `s.index(pat)` / `pat in s`). -/
def findSubIdx (pat : List Char) : List Char → Option Nat
  | [] => if pat.isEmpty then some 0 else none
  | c :: rest =>
    if pat.isPrefixOf (c :: rest) then some 0
    else
      match findSubIdx pat rest with
      | some i => some (i + 1)
      | none => none

/-- The name-extraction logic at the top of `_handle_appointment_lookup`:
strip a filler prefix found in the lowercased input (slicing the original
string), or remove action words and split. -/
def extractNameParts (user_input : String) : List String :=
  let user_lower := pyLower user_input
  match findSubIdx "my name is ".data user_lower.data with
  | some i => splitWs (pyStrip (String.mk (user_input.data.drop (i + 11))))
  | none =>
    match findSubIdx "i\x27m ".data user_lower.data with
    | some i => splitWs (pyStrip (String.mk (user_input.data.drop (i + 4))))
    | none =>
      match findSubIdx "i am ".data user_lower.data with
      | some i => splitWs (pyStrip (String.mk (user_input.data.drop (i + 5))))
      | none =>
        splitWs (["cancel", "reschedule", "check", "appointment", "my", "existing"].foldl
          (fun acc w => pyStrip (pyReplace acc w "")) user_input)

/-- The appointment scan of `_handle_appointment_lookup`: appointments
whose stored patient name contains any (lowercased) name token, joined with
their doctor's display name and specialty. -/
def lookupPatientAppointments (appointments : List Appointment)
    (doctors : List Doctor) (name_parts : List String) : List ApptInfo :=
  (appointments.filter (fun apt =>
      name_parts.any (fun part => containsPy (pyLower apt.patient_name) (pyLower part)))).map
    (fun apt =>
      match doctors.find? (fun d => d.doctor_id == apt.doctor_id) with
      | some doc => ⟨apt, "Dr. " ++ doc.first_name ++ " " ++ doc.last_name, doc.specialty⟩
      | none => ⟨apt, "Unknown Doctor", "Unknown"⟩)

/-- Python `str.title()` (capitalize each letter run, lowercase the rest),
used for the displayed appointment status. -/
def pyTitleGo : Bool → List Char → List Char
  | _, [] => []
  | prevAlpha, c :: rest =>
    (if c.isAlpha then (if prevAlpha then pyLowerChar c else pyUpperChar c) else c)
      :: pyTitleGo c.isAlpha rest

/-- Python `str.title()` on a string. -/
def pyTitle (s : String) : String :=
  String.mk (pyTitleGo false s.data)

/-- Update the first appointment whose id matches (the in-place mutation
loops of `_cancel_appointment` and the `reschedule_datetime` step). -/
def updateFirst (apt_id : String) (f : Appointment → Appointment) :
    List Appointment → List Appointment
  | [] => []
  | a :: rest =>
    if a.appointment_id == apt_id then f a :: rest
    else a :: updateFirst apt_id f rest

/-- `SchedulerAgent._cancel_appointment`: mark the stored record cancelled
(status and `cancelled_at` only — no reason field here), reset the
conversation, and report using the looked-up record's display data. -/
def agent_cancel_appointment (st : AgentState) (now : String) (info : ApptInfo) :
    String × AgentState :=
  if st.appointments.any (fun a => a.appointment_id == info.apt.appointment_id) then
    ("Your appointment has been successfully cancelled.\n\nCancelled Appointment:\nID: "
        ++ info.apt.appointment_id ++ "\nDate & Time: " ++ info.apt.date ++ " at "
        ++ info.apt.time ++ "\nDoctor: " ++ info.doctor_name
        ++ "\n\nIf you need to schedule a new appointment, just let me know!",
      { st with
          appointments := updateFirst info.apt.appointment_id
            (fun a => { a with status := "cancelled", cancelled_at := some now })
            st.appointments
          conv := emptyConv })
  else
    ("Sorry, I couldn\x27t find that appointment to cancel.", st)

/-- The numbered selection list shown for multiple matches. -/
def numberedList (l : List ApptInfo) : String :=
  String.intercalate "\n" (l.enum.map (fun p =>
    toString (p.1 + 1) ++ ". " ++ p.2.apt.appointment_id ++ ": " ++ p.2.apt.date
      ++ " at " ++ p.2.apt.time ++ " with " ++ p.2.doctor_name))

/-- The bulleted appointment list shown for the `check` action. -/
def bulletList (l : List ApptInfo) : String :=
  String.intercalate "\n" (l.map (fun info =>
    "• " ++ info.apt.appointment_id ++ ": " ++ info.apt.date ++ " at " ++ info.apt.time
      ++ " with " ++ info.doctor_name ++ " (" ++ info.doctor_specialty ++ ") - "
      ++ pyTitle info.apt.status))

/-- `SchedulerAgent._handle_appointment_lookup` (`action` is one of
`"cancel"`, `"reschedule"`, `"check"`; the source returns `None` on any
other action, which no caller passes — modelled as an empty response). -/
def handle_appointment_lookup (st : AgentState) (now : String)
    (user_input action : String) : String × AgentState :=
  let name_parts := extractNameParts user_input
  if name_parts.isEmpty then
    ("Please provide your name so I can look up your appointments.", st)
  else
    let patient_appointments := lookupPatientAppointments st.appointments st.doctors name_parts
    if patient_appointments.isEmpty then
      ("I couldn\x27t find any appointments for that name. Please make sure you\x27ve provided the correct name, or call our office at (555) 123-4567.",
        st)
    else if action == "check" then
      ("Here are your appointments:\n\n" ++ bulletList patient_appointments
          ++ "\n\nIs there anything else I can help you with?",
        { st with conv := emptyConv })
    else if action == "cancel" then
      match patient_appointments with
      | [info] => agent_cancel_appointment st now info
      | _ =>
        ("You have multiple appointments. Which one would you like to cancel?\n\n"
            ++ numberedList patient_appointments
            ++ "\n\nPlease enter the number of the appointment you want to cancel.",
          { st with conv := { st.conv with
              appointments_to_modify := patient_appointments
              conversation_step := some "select_appointment_cancel" } })
    else if action == "reschedule" then
      match patient_appointments with
      | [info] =>
        ("I\x27ll help you reschedule your appointment:\nCurrent: " ++ info.apt.date
            ++ " at " ++ info.apt.time ++ " with " ++ info.doctor_name
            ++ "\n\nWhen would you like to reschedule it to? Please provide your preferred date and time.",
          { st with conv := { st.conv with
              appointment_to_reschedule := some info
              conversation_step := some "reschedule_datetime" } })
      | _ =>
        ("You have multiple appointments. Which one would you like to reschedule?\n\n"
            ++ numberedList patient_appointments
            ++ "\n\nPlease enter the number of the appointment you want to reschedule.",
          { st with conv := { st.conv with
              appointments_to_modify := patient_appointments
              conversation_step := some "select_appointment_reschedule" } })
    else
      ("", st)

/-- The date-keyword normalization shared by the `datetime_preference` and
`reschedule_datetime` steps. -/
def extractDatePref (user_input : String) : String :=
  let low := pyStrip (pyLower user_input)
  if containsPy low "tomorrow" then "tomorrow"
  else if containsPy low "today" then "today"
  else if containsPy low "next week" then "next week"
  else if containsPy low "monday" then "next Monday"
  else if containsPy low "tuesday" then "next Tuesday"
  else if containsPy low "wednesday" then "next Wednesday"
  else if containsPy low "thursday" then "next Thursday"
  else if containsPy low "friday" then "next Friday"
  else pyStrip user_input

/-- The time-keyword normalization shared by the `datetime_preference` and
`reschedule_datetime` steps (default `"10:00 AM"`). -/
def extractTimePref (user_input : String) : String :=
  let low := pyStrip (pyLower user_input)
  if containsPy low "morning" then "9:00 AM"
  else if containsPy low "afternoon" then "2:00 PM"
  else if containsPy low "evening" then "5:00 PM"
  else if containsPy low "noon" then "12:00 PM"
  else "10:00 AM"

/-! ### SchedulerAgent: the rule-based dialogue dispatcher -/

/-- The booking confirmation emitted on a successful `email_collection`
step. -/
def bookingSuccessMessage (appointment : Appointment) (doctor : Doctor)
    (patient_email : String) : String :=
  "Perfect! Your appointment has been successfully booked.\n\n📅 **Appointment Confirmation**\nAppointment ID: "
    ++ appointment.appointment_id ++ "\nPatient: " ++ appointment.patient_name
    ++ "\nDoctor: Dr. " ++ doctor.first_name ++ " " ++ doctor.last_name ++ " ("
    ++ doctor.specialty ++ ")\nDate & Time: " ++ appointment.date ++ " at "
    ++ appointment.time ++ "\nStatus: " ++ pyTitle appointment.status
    ++ "\n\n📧 A confirmation email has been sent to " ++ patient_email
    ++ "\n\nIs there anything else I can help you with today?"

/-- `SchedulerAgent._generate_rule_based_response`.

The branch structure mirrors the source: one `if/elif` chain handling
greeting / modify-intent / name collection (the name branch may fall
through), followed by a second chain keyed on intent and current step.
`emailSendFails` models an I/O exception raised by the simulated
confirmation-email send inside the `email_collection` step's `try` block;
the source catches it there, returns an apology and sets the step to
`confirmation`.  `now` models `datetime.now().isoformat()`. -/
def rule_based_response (st0 : AgentState) (emailSendFails : Bool) (now : String)
    (user_input : String) (analysis : Analysis) : String × AgentState :=
  let intent := analysis.intent
  let input_lower := pyStrip (pyLower user_input)
  if intent == "empty" then
    ("Please enter a message or type \x27exit\x27 to quit.", st0)
  else
    let conv :=
      if st0.conv.conversation_step.isNone then
        { st0.conv with conversation_step := some "initial" }
      else st0.conv
    let st : AgentState := { st0 with conv := conv }
    let current_step := conv.conversation_step.getD ""
    if intent == "greeting" && current_step == "initial"
        && !(containsPy input_lower "cancel") && !(containsPy input_lower "reschedule") then
      ("Hello! Welcome to our medical scheduling system. I\x27m here to help you schedule an appointment. Could you please tell me your full name?",
        { st with conv := { conv with conversation_step := some "name_requested" } })
    else if intent == "modify_appointment" then
      let user_lower := pyLower user_input
      if containsPy user_lower "cancel" then
        handle_appointment_lookup st now user_input "cancel"
      else if containsPy user_lower "reschedule" then
        handle_appointment_lookup st now user_input "reschedule"
      else if containsPy user_lower "check" then
        handle_appointment_lookup st now user_input "check"
      else
        ("I can help you with appointment changes. Would you like to:\n1. Cancel an appointment\n2. Reschedule an appointment\n3. Check your existing appointments\n\nPlease tell me what you\x27d like to do and provide your name.",
          { st with conv := { conv with conversation_step := some "modification_type" } })
    else if current_step == "name_requested"
        && !(intent == "schedule_appointment" || intent == "modify_appointment"
          || intent == "greeting") then
      let name_input0 := pyStrip user_input
      let name_input :=
        if pyStartsWith (pyLower name_input0) "my name is " then pyDropChars name_input0 11
        else if pyStartsWith (pyLower name_input0) "i\x27m " then pyDropChars name_input0 4
        else if pyStartsWith (pyLower name_input0) "i am " then pyDropChars name_input0 5
        else name_input0
      ("Thank you, " ++ pyStrip name_input
          ++ ". What type of doctor would you like to see? For example: cardiologist, dermatologist, general practitioner, etc.",
        { st with conv := { conv with
            patient_name := some (pyStrip name_input)
            conversation_step := some "appointment_type" } })
    else if intent == "schedule_appointment" || current_step == "appointment_type" then
      if conv.patient_name.isNone then
        ("I\x27d be happy to help you schedule an appointment. Could you please tell me your full name first?",
          { st with conv := { conv with conversation_step := some "name_requested" } })
      else
        match analysis.specialty with
        | some specialty =>
          ("Great! I\x27ll help you find a " ++ specialty
              ++ ". When would you prefer your appointment? Please provide your preferred date and time.",
            { st with conv := { conv with
                specialty := some specialty
                conversation_step := some "datetime_preference" } })
        | none =>
          if current_step == "appointment_type" then
            ("Perfect! I\x27ll help you schedule an appointment with a " ++ pyStrip user_input
                ++ ". When would you prefer your appointment? Please provide your preferred date and time.",
              { st with conv := { conv with
                  specialty := some (pyStrip user_input)
                  conversation_step := some "datetime_preference" } })
          else
            ("What type of doctor would you like to see? We have cardiologists, dermatologists, general practitioners, and many other specialists available.",
              { st with conv := { conv with conversation_step := some "appointment_type" } })
    else if current_step == "datetime_preference" then
      let date_pref := extractDatePref user_input
      let time_pref := extractTimePref user_input
      ("Perfect! I\x27ll check our availability for " ++ date_pref ++ " at " ++ time_pref
          ++ ". Before I confirm your appointment, could you please provide your insurance information? What insurance provider do you have?",
        { st with conv := { conv with
            date_preference := some date_pref
            time_preference := some time_pref
            conversation_step := some "insurance_info" } })
    else if current_step == "insurance_info" then
      ("Thank you for providing your insurance information. To send you a confirmation, could you please provide your email address?",
        { st with conv := { conv with
            insurance_provider := some (pyStrip user_input)
            conversation_step := some "email_collection" } })
    else if current_step == "email_collection" then
      let conv1 := { conv with patient_email := some (pyStrip user_input) }
      let pr := find_or_create_patient st.patients (conv1.patient_name.getD "")
        (conv1.patient_email.getD "") (conv1.insurance_provider.getD "")
      match find_available_doctor st.doctors (conv1.specialty.getD "") with
      | some doctor =>
        let br := agent_book_appointment st.appointments now pr.1 doctor.doctor_id
          (conv1.date_preference.getD "tomorrow") (conv1.time_preference.getD "10:00 AM")
        if emailSendFails then
          ("I apologize, but there was an error booking your appointment. Please call our office at (555) 123-4567 to book manually. Is there anything else I can help you with?",
            { st with
                patients := pr.2
                appointments := br.2
                conv := { conv1 with conversation_step := some "confirmation" } })
        else
          (bookingSuccessMessage br.1 doctor (conv1.patient_email.getD ""),
            { st with
                patients := pr.2
                appointments := br.2
                conv := { conv1 with conversation_step := some "confirmation" } })
      | none =>
        ("I apologize, but we don\x27t have any available doctors for your requested specialty at this time. Please call our office at (555) 123-4567 to check alternative options. Is there anything else I can help you with?",
          { st with
              patients := pr.2
              conv := { conv1 with conversation_step := some "confirmation" } })
    else if current_step == "modification_type" then
      let user_lower := pyLower user_input
      if containsPy user_lower "cancel" then
        handle_appointment_lookup
          { st with conv := { conv with modification_action := some "cancel" } }
          now user_input "cancel"
      else if containsPy user_lower "reschedule" then
        handle_appointment_lookup
          { st with conv := { conv with modification_action := some "reschedule" } }
          now user_input "reschedule"
      else if containsPy user_lower "check" || containsPy user_lower "existing" then
        handle_appointment_lookup
          { st with conv := { conv with modification_action := some "check" } }
          now user_input "check"
      else
        ("Please specify whether you want to cancel, reschedule, or check your appointments.", st)
    else if current_step == "confirmation" then
      if intent == "negative"
          || ["no", "nothing", "bye", "goodbye", "thanks", "thank you"].any
            (containsPy input_lower) then
        ("You\x27re welcome! Have a great day and see you at your appointment!",
          { st with conv := emptyConv })
      else
        ("How else can I assist you today? I can help with scheduling, rescheduling, or answering questions about our services.",
          st)
    else if current_step == "select_appointment_cancel" then
      match (pyStrip user_input).toInt? with
      | some n =>
        if 0 ≤ n - 1 then
          match conv.appointments_to_modify.get? (n - 1).toNat with
          | some info => agent_cancel_appointment st now info
          | none => ("Please enter a valid appointment number.", st)
        else ("Please enter a valid appointment number.", st)
      | none =>
        ("Please enter a number corresponding to the appointment you want to cancel.", st)
    else if current_step == "select_appointment_reschedule" then
      match (pyStrip user_input).toInt? with
      | some n =>
        if 0 ≤ n - 1 then
          match conv.appointments_to_modify.get? (n - 1).toNat with
          | some info =>
            ("I\x27ll help you reschedule your appointment:\nCurrent: " ++ info.apt.date
                ++ " at " ++ info.apt.time ++ " with " ++ info.doctor_name
                ++ "\n\nWhen would you like to reschedule it to? Please provide your preferred date and time.",
              { st with conv := { conv with
                  appointment_to_reschedule := some info
                  conversation_step := some "reschedule_datetime" } })
          | none => ("Please enter a valid appointment number.", st)
        else ("Please enter a valid appointment number.", st)
      | none =>
        ("Please enter a number corresponding to the appointment you want to reschedule.", st)
    else if current_step == "reschedule_datetime" then
      let new_date := extractDatePref user_input
      let new_time := extractTimePref user_input
      match conv.appointment_to_reschedule with
      | some info =>
        match st.appointments.find?
            (fun a => a.appointment_id == info.apt.appointment_id) with
        | some stored =>
          ("Your appointment has been successfully rescheduled!\n\n**Updated Appointment Details:**\nID: "
              ++ info.apt.appointment_id ++ "\nPrevious: " ++ stored.date ++ " at "
              ++ stored.time ++ "\nNew: " ++ new_date ++ " at " ++ new_time
              ++ "\nDoctor: " ++ info.doctor_name
              ++ "\n\nIs there anything else I can help you with?",
            { st with
                appointments := updateFirst info.apt.appointment_id
                  (fun a => { a with
                      date := new_date
                      time := new_time
                      rescheduled_at := some now })
                  st.appointments
                conv := emptyConv })
        | none => ("Sorry, I couldn\x27t find that appointment to reschedule.", st)
      | none => ("Sorry, I couldn\x27t find that appointment to reschedule.", st)
    else
      ("I\x27m here to help with scheduling medical appointments. You can ask me to schedule a new appointment, cancel an existing one, or check available times. How can I assist you today?",
        st)

/-- `SchedulerAgent.generate_response`: analyze the input and dispatch to
the rule-based handler.  The outer `try/except` of the source catches
uncaught exceptions and returns a generic apology without restoring state;
the only failure point modelled here (the simulated confirmation-email
send) is already caught inside the `email_collection` step, so the outer
handler's branch is unreachable in this embedding. -/
def generate_response (st : AgentState) (emailSendFails : Bool) (now : String)
    (user_input : String) : String × AgentState :=
  rule_based_response st emailSendFails now user_input (analyze_user_input user_input)

/-! ### Spec-side predicates and concrete fixtures -/

/-- The spec's slot invariant, strengthened to any status: at most one
stored appointment per (doctor id, date, time) triple. -/
def SlotInv (l : List Appointment) : Prop :=
  ∀ doctor_id date time, countAt l doctor_id date time ≤ 1

/-- Fixture: a doctor record. -/
def docSmith : Doctor := ⟨"DOC001", "John", "Smith", "Cardiology", "Main Office"⟩

/-- Fixture: `date.today()` = Monday 2026-10-12, so "2026-10-13" is a
future working day. -/
def today0 : Date := ⟨2026, 10, 12⟩

/-- Fixture: a `patient_data` dict as passed to `book_slot`. -/
def janePD : PatientData := ⟨some "P0001", some "Jane Doe", none, none, none, none⟩

/-- Fixture: a patient record as produced by find-or-create. -/
def janePatient : Patient := ⟨"P0001", "Jane", "Doe", "a@x.com", some true, "Aetna"⟩

/-- Fixture: the store after booking Jane at DOC001, 2026-10-13, 09:00. -/
def bookedStore : List Appointment :=
  (book_slot [] [docSmith] today0 "2026-10-12T08:00:00" "DOC001" "2026-10-13" "09:00"
    janePD 30).2

/-- Fixture: a conversation state sitting in the `email_collection` step. -/
def convEC : ConvState :=
  { emptyConv with
      conversation_step := some "email_collection"
      patient_name := some "Jane Doe"
      specialty := some "cardiologist"
      date_preference := some "tomorrow"
      time_preference := some "9:00 AM"
      insurance_provider := some "Aetna" }

/-- Fixture: agent state ready to book via the `email_collection` step. -/
def agentEC : AgentState := ⟨[], [], [docSmith], convEC⟩

/-- Fixture: a fresh agent state with one doctor and empty stores. -/
def agentStart : AgentState := ⟨[], [], [docSmith], emptyConv⟩

/-- Fixture: the appointment record held in `bookedStore`. -/
def bkApt : Appointment :=
  mkBookedAppointment [] docSmith "DOC001" "2026-10-13" "09:00" janePD 30
    "2026-10-12T08:00:00"

/-- Fixture: `bookedStore` after cancelling its single appointment. -/
def cancelledStore : List Appointment :=
  (cancel_appointment bookedStore "2026-10-12T09:00:00" "APT0001" "no longer needed").2

/-- Fixture: the cancelled appointment record held in `cancelledStore`. -/
def cApt : Appointment :=
  { bkApt with
      status := "cancelled"
      cancelled_at := some "2026-10-12T09:00:00"
      cancellation_reason := some "no longer needed" }

/-! ## Helper lemmas -/

/-- Every slot emitted by the generation loop is free: no appointment in
`existing` has that time string. -/
theorem mem_slotLoop_not_booked (existing : List Appointment) (step : Nat) :
    ∀ (fuel h : Nat) (s : String), s ∈ slotLoop existing step fuel h →
      existing.any (fun a => a.time == s) = false := by
  intro fuel
  induction fuel with
  | zero => intro h s hs; simp [slotLoop] at hs
  | succ n ih =>
    intro h s hs
    rw [slotLoop] at hs
    by_cases h17 : h < 17
    · rw [if_pos h17] at hs
      by_cases hl : 12 ≤ h ∧ h < 13
      · rw [if_pos hl] at hs
        exact ih _ _ hs
      · rw [if_neg hl] at hs
        by_cases hb : existing.any (fun a => a.time == fmtHour h) = true
        · rw [if_pos hb] at hs
          exact ih _ _ hs
        · rw [if_neg hb] at hs
          rcases List.mem_cons.mp hs with rfl | hs2
          · exact Bool.not_eq_true _ |>.mp hb
          · exact ih _ _ hs2
    · rw [if_neg h17] at hs
      simp at hs

/-- Every slot emitted by the generation loop is `f"{h:02d}:00"` for an
hour below 17 and different from the lunch hour 12. -/
theorem mem_slotLoop_hour (existing : List Appointment) (step : Nat) :
    ∀ (fuel h : Nat) (s : String), s ∈ slotLoop existing step fuel h →
      ∃ h2, s = fmtHour h2 ∧ h2 < 17 ∧ h2 ≠ 12 := by
  intro fuel
  induction fuel with
  | zero => intro h s hs; simp [slotLoop] at hs
  | succ n ih =>
    intro h s hs
    rw [slotLoop] at hs
    by_cases h17 : h < 17
    · rw [if_pos h17] at hs
      by_cases hl : 12 ≤ h ∧ h < 13
      · rw [if_pos hl] at hs
        exact ih _ _ hs
      · rw [if_neg hl] at hs
        by_cases hb : existing.any (fun a => a.time == fmtHour h) = true
        · rw [if_pos hb] at hs
          exact ih _ _ hs
        · rw [if_neg hb] at hs
          rcases List.mem_cons.mp hs with rfl | hs2
          · exact ⟨h, rfl, h17, by omega⟩
          · exact ih _ _ hs2
    · rw [if_neg h17] at hs
      simp at hs

/-- An occupied (doctor, date) time never appears among the available
slots — regardless of the appointment's status. -/
theorem mem_available_not_occupied {appointments : List Appointment} {today : Date}
    {doctor_id date_str : String} {dur : Nat} {s : String}
    (hs : s ∈ get_available_slots appointments today doctor_id date_str dur) :
    ∀ a ∈ appointments, a.doctor_id = doctor_id → a.date = date_str → a.time ≠ s := by
  intro a ha hdoc hdate heq
  unfold get_available_slots at hs
  cases hp : parseDateYMD date_str with
  | none => rw [hp] at hs; simp at hs
  | some target =>
    rw [hp] at hs
    simp only at hs
    by_cases hw : weekday target ∈ [0, 1, 2, 3, 4]
    · rw [if_pos hw] at hs
      by_cases hf : dayNumber target ≤ dayNumber today
      · rw [if_pos hf] at hs; simp at hs
      · rw [if_neg hf] at hs
        have hb := mem_slotLoop_not_booked _ _ _ _ _ hs
        rw [List.any_eq_false] at hb
        have hmem : a ∈ appointments.filter
            (fun a => a.doctor_id == doctor_id && a.date == date_str) := by
          rw [List.mem_filter]
          exact ⟨ha, by simp [hdoc, hdate]⟩
        exact hb a hmem (by simp [heq])
    · rw [if_neg hw] at hs; simp at hs

/-- Every available slot is an on-the-hour time below 17:00 and not at the
lunch hour. -/
theorem mem_available_hour {appointments : List Appointment} {today : Date}
    {doctor_id date_str : String} {dur : Nat} {s : String}
    (hs : s ∈ get_available_slots appointments today doctor_id date_str dur) :
    ∃ h2, s = fmtHour h2 ∧ h2 < 17 ∧ h2 ≠ 12 := by
  unfold get_available_slots at hs
  cases hp : parseDateYMD date_str with
  | none => rw [hp] at hs; simp at hs
  | some target =>
    rw [hp] at hs
    simp only at hs
    by_cases hw : weekday target ∈ [0, 1, 2, 3, 4]
    · rw [if_pos hw] at hs
      by_cases hf : dayNumber target ≤ dayNumber today
      · rw [if_pos hf] at hs; simp at hs
      · rw [if_neg hf] at hs
        exact mem_slotLoop_hour _ _ _ _ _ hs
    · rw [if_neg hw] at hs; simp at hs

/-- Unfolding of the slot-occupancy test. -/
theorem matchesSlot_eq_true_iff (doctor_id date time : String) (a : Appointment) :
    matchesSlot doctor_id date time a = true ↔
      a.doctor_id = doctor_id ∧ a.date = date ∧ a.time = time := by
  simp [matchesSlot, Bool.and_eq_true, beq_iff_eq, and_assoc]

/-- Cons rule for the slot count. -/
theorem countAt_cons (x : Appointment) (l : List Appointment) (d ds t : String) :
    countAt (x :: l) d ds t =
      (if matchesSlot d ds t x = true then 1 else 0) + countAt l d ds t := by
  unfold countAt
  cases h : matchesSlot d ds t x <;> simp [List.filter_cons, h, Nat.add_comm]

/-- Append-singleton rule for the slot count. -/
theorem countAt_append_single (l : List Appointment) (x : Appointment) (d ds t : String) :
    countAt (l ++ [x]) d ds t =
      countAt l d ds t + (if matchesSlot d ds t x = true then 1 else 0) := by
  unfold countAt
  rw [List.filter_append]
  cases h : matchesSlot d ds t x <;> simp [List.filter_cons, h]

/-- The slot count vanishes exactly when no stored appointment matches. -/
theorem countAt_eq_zero_iff (l : List Appointment) (d ds t : String) :
    countAt l d ds t = 0 ↔ ∀ a ∈ l, matchesSlot d ds t a = false := by
  unfold countAt
  rw [List.length_eq_zero, List.filter_eq_nil_iff]
  constructor
  · intro h a ha
    exact Bool.not_eq_true _ |>.mp (h a ha)
  · intro h a ha
    rw [h a ha]
    simp

/-- Members of the updated store come from the old store or are the
replacement record. -/
theorem mem_replaceFirst {apt_id : String} {u : Appointment} :
    ∀ {l : List Appointment} {b : Appointment},
      b ∈ replaceFirst apt_id u l → b ∈ l ∨ b = u := by
  intro l
  induction l with
  | nil => intro b hb; simp [replaceFirst] at hb
  | cons a rest ih =>
    intro b hb
    rw [replaceFirst] at hb
    by_cases ha : (a.appointment_id == apt_id) = true
    · rw [if_pos ha] at hb
      rcases List.mem_cons.mp hb with rfl | hb2
      · exact Or.inr rfl
      · exact Or.inl (List.mem_cons_of_mem _ hb2)
    · rw [if_neg ha] at hb
      rcases List.mem_cons.mp hb with rfl | hb2
      · exact Or.inl (List.mem_cons_self _ _)
      · rcases ih hb2 with h | h
        · exact Or.inl (List.mem_cons_of_mem _ h)
        · exact Or.inr h

/-- Replacing the first id-match with a record that keeps the found
record's (doctor, date, time) leaves every slot count unchanged. -/
theorem countAt_replaceFirst_same_slot (apt_id : String) (u : Appointment) :
    ∀ (l : List Appointment) (apt : Appointment),
      l.find? (fun a => a.appointment_id == apt_id) = some apt →
      u.doctor_id = apt.doctor_id → u.date = apt.date → u.time = apt.time →
      ∀ d ds t, countAt (replaceFirst apt_id u l) d ds t = countAt l d ds t := by
  intro l
  induction l with
  | nil => intro apt h; simp [List.find?] at h
  | cons a rest ih =>
    intro apt hfind hd hds ht d ds t
    rw [replaceFirst]
    by_cases ha : (a.appointment_id == apt_id) = true
    · rw [if_pos ha]
      simp only [List.find?, ha] at hfind
      obtain rfl : a = apt := Option.some_inj.mp hfind
      rw [countAt_cons, countAt_cons]
      have : matchesSlot d ds t u = matchesSlot d ds t a := by
        simp [matchesSlot, hd, hds, ht]
      rw [this]
    · rw [if_neg ha]
      rw [Bool.not_eq_true] at ha
      simp only [List.find?, ha] at hfind
      rw [countAt_cons, countAt_cons, ih apt hfind hd hds ht]

/-- Replacing the first id-match with a record whose target slot is free in
the whole old store preserves the at-most-one-per-slot bound. -/
theorem countAt_replaceFirst_le (apt_id : String) (u : Appointment) :
    ∀ (l : List Appointment),
      (∀ a ∈ l, a.doctor_id = u.doctor_id → a.date = u.date → a.time ≠ u.time) →
      (∀ d ds t, countAt l d ds t ≤ 1) →
      ∀ d ds t, countAt (replaceFirst apt_id u l) d ds t ≤ 1 := by
  intro l
  induction l with
  | nil => intro _ _ d ds t; simp [replaceFirst, countAt]
  | cons a rest ih =>
    intro H0 hinv d ds t
    have H0rest : ∀ b ∈ rest, b.doctor_id = u.doctor_id → b.date = u.date →
        b.time ≠ u.time :=
      fun b hb => H0 b (List.mem_cons_of_mem _ hb)
    have hinvrest : ∀ d2 ds2 t2, countAt rest d2 ds2 t2 ≤ 1 := by
      intro d2 ds2 t2
      have := hinv d2 ds2 t2
      rw [countAt_cons] at this
      by_cases h : matchesSlot d2 ds2 t2 a = true
      · rw [if_pos h] at this; omega
      · rw [if_neg h] at this; omega
    rw [replaceFirst]
    by_cases ha : (a.appointment_id == apt_id) = true
    · rw [if_pos ha, countAt_cons]
      by_cases hu : matchesSlot d ds t u = true
      · rw [if_pos hu]
        rcases (matchesSlot_eq_true_iff d ds t u).mp hu with ⟨h1, h2, h3⟩
        have hzero : countAt rest d ds t = 0 := by
          rw [countAt_eq_zero_iff]
          intro b hb
          by_cases hbm : matchesSlot d ds t b = true
          · rcases (matchesSlot_eq_true_iff d ds t b).mp hbm with ⟨g1, g2, g3⟩
            exact absurd (g3.trans h3.symm)
              (H0rest b hb (g1.trans h1.symm) (g2.trans h2.symm))
          · exact Bool.not_eq_true _ |>.mp hbm
        omega
      · rw [if_neg hu]
        have := hinvrest d ds t
        omega
    · rw [if_neg ha, countAt_cons]
      by_cases haM : matchesSlot d ds t a = true
      · rw [if_pos haM]
        rcases (matchesSlot_eq_true_iff d ds t a).mp haM with ⟨g1, g2, g3⟩
        have hrest0 : countAt rest d ds t = 0 := by
          have := hinv d ds t
          rw [countAt_cons, if_pos haM] at this
          omega
        have hu0 : matchesSlot d ds t u = false := by
          by_cases h : matchesSlot d ds t u = true
          · rcases (matchesSlot_eq_true_iff d ds t u).mp h with ⟨h1, h2, h3⟩
            exact absurd (g3.trans h3.symm)
              (H0 a (List.mem_cons_self _ _) (g1.trans h1.symm) (g2.trans h2.symm))
          · exact Bool.not_eq_true _ |>.mp h
        have hz : countAt (replaceFirst apt_id u rest) d ds t = 0 := by
          rw [countAt_eq_zero_iff]
          intro b hb
          rcases mem_replaceFirst hb with hbr | rfl
          · exact (countAt_eq_zero_iff rest d ds t).mp hrest0 b hbr
          · exact hu0
        omega
      · rw [if_neg haM]
        have := ih H0rest hinvrest d ds t
        omega

/-- The non-cancelled slot count is bounded by the any-status slot count. -/
theorem countActiveAt_le_countAt (l : List Appointment) (d ds t : String) :
    countActiveAt l d ds t ≤ countAt l d ds t := by
  unfold countActiveAt countAt
  induction l with
  | nil => simp
  | cons a rest ih =>
    rw [List.filter_cons, List.filter_cons]
    cases h : matchesSlot d ds t a with
    | false => simpa [h] using ih
    | true => cases hs : (a.status != "cancelled") <;> simp [h, hs] <;> omega


/-- `book_slot` preserves the at-most-one-per-slot invariant. -/
theorem SlotInv_book (appointments : List Appointment) (doctors : List Doctor)
    (today : Date) (now d ds t : String) (p : PatientData) (dur : Nat)
    (hinv : SlotInv appointments) :
    SlotInv (book_slot appointments doctors today now d ds t p dur).2 := by
  intro d2 ds2 t2
  by_cases hc : (get_available_slots appointments today d ds dur).contains t = true
  · cases hfind : doctors.find? (fun doc => doc.doctor_id == d) with
    | none =>
      have hsame : (book_slot appointments doctors today now d ds t p dur).2
          = appointments := by
        unfold book_slot
        rw [hc, hfind]
        simp
      rw [hsame]
      exact hinv d2 ds2 t2
    | some doctor =>
      have happ : (book_slot appointments doctors today now d ds t p dur).2
          = appointments
            ++ [mkBookedAppointment appointments doctor d ds t p dur now] := by
        unfold book_slot
        rw [hc, hfind]
        simp
      rw [happ, countAt_append_single]
      by_cases hm : matchesSlot d2 ds2 t2
          (mkBookedAppointment appointments doctor d ds t p dur now) = true
      · rcases (matchesSlot_eq_true_iff _ _ _ _).mp hm with ⟨g1, g2, g3⟩
        have hd2 : d2 = d := by simpa [mkBookedAppointment] using g1.symm
        have hds2 : ds2 = ds := by simpa [mkBookedAppointment] using g2.symm
        have ht2 : t2 = t := by simpa [mkBookedAppointment] using g3.symm
        have htmem : t ∈ get_available_slots appointments today d ds dur :=
          List.elem_iff.mp hc
        have h0 : countAt appointments d2 ds2 t2 = 0 := by
          rw [countAt_eq_zero_iff]
          intro b hb
          by_cases hbm : matchesSlot d2 ds2 t2 b = true
          · rcases (matchesSlot_eq_true_iff _ _ _ _).mp hbm with ⟨k1, k2, k3⟩
            exact absurd (k3.trans ht2)
              (mem_available_not_occupied htmem b hb (k1.trans hd2) (k2.trans hds2))
          · exact (Bool.not_eq_true _).mp hbm
        rw [h0, if_pos hm]
      · rw [if_neg hm]
        have := hinv d2 ds2 t2
        omega
  · have hsame : (book_slot appointments doctors today now d ds t p dur).2
        = appointments := by
      unfold book_slot
      rw [Bool.not_eq_true] at hc
      rw [hc]
      simp
    rw [hsame]
    exact hinv d2 ds2 t2

/-- `reschedule_appointment` preserves the at-most-one-per-slot invariant. -/
theorem SlotInv_resched (appointments : List Appointment) (today : Date)
    (now appointment_id new_date new_time : String)
    (hinv : SlotInv appointments) :
    SlotInv (reschedule_appointment appointments today now appointment_id
      new_date new_time).2 := by
  cases hfind : appointments.find? (fun a => a.appointment_id == appointment_id) with
  | none =>
    have hsame : (reschedule_appointment appointments today now appointment_id
        new_date new_time).2 = appointments := by
      unfold reschedule_appointment
      rw [hfind]
    rw [hsame]
    exact hinv
  | some apt =>
    by_cases hc : (get_available_slots appointments today apt.doctor_id new_date
        (apt.duration_minutes.getD 30)).contains new_time = true
    · have hrepl : (reschedule_appointment appointments today now appointment_id
          new_date new_time).2
          = replaceFirst appointment_id (mkRescheduled apt new_date new_time now)
              appointments := by
        unfold reschedule_appointment
        rw [hfind]
        simp only
        rw [hc]
        simp
      rw [hrepl]
      apply countAt_replaceFirst_le
      · intro b hb h1 h2 h3
        exact mem_available_not_occupied (List.elem_iff.mp hc) b hb h1 h2 h3
      · exact hinv
    · have hsame : (reschedule_appointment appointments today now appointment_id
          new_date new_time).2 = appointments := by
        unfold reschedule_appointment
        rw [hfind]
        simp only
        rw [Bool.not_eq_true] at hc
        rw [hc]
        simp
      rw [hsame]
      exact hinv

/-- `cancel_appointment` preserves every slot count. -/
theorem SlotInv_cancel (appointments : List Appointment)
    (now appointment_id reason : String) (hinv : SlotInv appointments) :
    SlotInv (cancel_appointment appointments now appointment_id reason).2 := by
  cases hfind : appointments.find? (fun a => a.appointment_id == appointment_id) with
  | none =>
    have hsame : (cancel_appointment appointments now appointment_id reason).2
        = appointments := by
      unfold cancel_appointment
      rw [hfind]
    rw [hsame]
    exact hinv
  | some apt =>
    have hrepl : (cancel_appointment appointments now appointment_id reason).2
        = replaceFirst appointment_id (mkCancelled apt now reason) appointments := by
      unfold cancel_appointment
      rw [hfind]
    rw [hrepl]
    intro d2 ds2 t2
    rw [countAt_replaceFirst_same_slot appointment_id (mkCancelled apt now reason)
      appointments apt hfind rfl rfl rfl]
    exact hinv d2 ds2 t2

/-- Every single `CalendarManager` operation preserves the invariant. -/
theorem SlotInv_applyCalOp (doctors : List Doctor) (l : List Appointment)
    (op : CalOp) (hinv : SlotInv l) : SlotInv (applyCalOp doctors l op) := by
  cases op with
  | book today now d ds t p dur => exact SlotInv_book l doctors today now d ds t p dur hinv
  | resched today now id nd nt => exact SlotInv_resched l today now id nd nt hinv
  | cancel now id r => exact SlotInv_cancel l now id r hinv

/-- The invariant carries through any fold of `CalendarManager` operations. -/
theorem SlotInv_foldl (doctors : List Doctor) :
    ∀ (ops : List CalOp) (l : List Appointment), SlotInv l →
      SlotInv (ops.foldl (applyCalOp doctors) l) := by
  intro ops
  induction ops with
  | nil => intro l h; simpa using h
  | cons op rest ih =>
    intro l h
    rw [List.foldl_cons]
    exact ih _ (SlotInv_applyCalOp doctors l op h)

/-- C1 (amended): for every sequence of `CalendarManager` `book_slot` /
`reschedule_appointment` / `cancel_appointment` operations starting from
the empty store, at most one non-cancelled appointment exists afterwards
for each (doctor id, date, time) triple.  (The Dialogue Engine's
`email_collection` bookings go through `SchedulerAgent.book_appointment`,
which performs no availability check and can violate this — see the
counterexample.) -/
theorem claim1_calendar_ops_no_double_booking (doctors : List Doctor)
    (ops : List CalOp) (doctor_id date time : String) :
    countActiveAt (runCalOps doctors ops) doctor_id date time ≤ 1 := by
  have h1 := SlotInv_foldl doctors ops []
    (by intro d ds t; simp [countAt]) doctor_id date time
  have h2 := countActiveAt_le_countAt (runCalOps doctors ops) doctor_id date time
  unfold runCalOps
  unfold runCalOps at h2
  omega

/-- Refutes C1 as stated: two conversations that both reach the
`email_collection` step with the same preferences book the same
(doctor, date, time) twice; both appointments stay `scheduled`, so the
store holds two non-cancelled appointments for one slot. -/
theorem claim1_counterexample :
    countActiveAt
      (generate_response
        { (generate_response agentEC false "2026-10-12T10:00:00" "jane@x.com").2 with
            conv := convEC }
        false "2026-10-12T10:05:00" "jane@x.com").2.appointments
      "DOC001" "tomorrow" "9:00 AM" = 2 := by
  decide


/-- C2 (amended): a time returned by `get_available_slots` immediately
books successfully with the same parameters and no intervening mutation —
provided the doctor id exists in the doctor store (the availability
computation never checks doctor existence, but `book_slot` does). -/
theorem claim2_available_slot_books (appointments : List Appointment)
    (doctors : List Doctor) (today : Date)
    (now doctor_id date_str time_str : String) (patient_data : PatientData)
    (dur : Nat)
    (hdoc : ∃ doc, doctors.find? (fun d => d.doctor_id == doctor_id) = some doc)
    (ht : time_str ∈ get_available_slots appointments today doctor_id date_str dur) :
    (book_slot appointments doctors today now doctor_id date_str time_str
      patient_data dur).1.success = true := by
  obtain ⟨doc, hdoc⟩ := hdoc
  have hc : (get_available_slots appointments today doctor_id date_str dur).contains
      time_str = true := List.elem_iff.mpr ht
  unfold book_slot
  rw [hc, hdoc]
  simp

/-- Witness for C2 at a concrete store, doctor and date. -/
theorem claim2_witness :
    (∃ doc, [docSmith].find? (fun d => d.doctor_id == "DOC001") = some doc) ∧
    "09:00" ∈ get_available_slots [] today0 "DOC001" "2026-10-13" 30 ∧
    (book_slot [] [docSmith] today0 "2026-10-12T08:00:00" "DOC001" "2026-10-13"
      "09:00" janePD 30).1.success = true :=
  ⟨⟨docSmith, by decide⟩, by decide,
    claim2_available_slot_books [] [docSmith] today0 "2026-10-12T08:00:00" "DOC001"
      "2026-10-13" "09:00" janePD 30 ⟨docSmith, by decide⟩ (by decide)⟩

/-- Refutes C2 as stated: for a doctor id absent from the doctor store,
`get_available_slots` still returns 09:00 but booking it fails (with a
"Doctor not found" result), so availability does not imply booking
success for every doctor id. -/
theorem claim2_counterexample :
    "09:00" ∈ get_available_slots [] today0 "DOC999" "2026-10-13" 30 ∧
    (book_slot [] [] today0 "2026-10-12T08:00:00" "DOC999" "2026-10-13" "09:00"
      janePD 30).1.success = false := by
  decide

/-- C3 (amended): rescheduling an existing appointment to its own current
slot always **fails**: the moved appointment is not excluded from its own
conflict check, so its own slot is never in the availability list. -/
theorem claim3_reschedule_own_slot_fails (appointments : List Appointment)
    (today : Date) (now appointment_id : String) (apt : Appointment)
    (hfind : appointments.find? (fun a => a.appointment_id == appointment_id)
      = some apt) :
    (reschedule_appointment appointments today now appointment_id apt.date
      apt.time).1.success = false := by
  have hmem := List.mem_of_find?_eq_some hfind
  have hnc : (get_available_slots appointments today apt.doctor_id apt.date
      (apt.duration_minutes.getD 30)).contains apt.time = false := by
    by_cases h : (get_available_slots appointments today apt.doctor_id apt.date
        (apt.duration_minutes.getD 30)).contains apt.time = true
    · exact absurd rfl
        (mem_available_not_occupied (List.elem_iff.mp h) apt hmem rfl rfl)
    · exact (Bool.not_eq_true _).mp h
  unfold reschedule_appointment
  rw [hfind]
  simp only
  rw [hnc]
  simp

/-- Witness for C3 at the concrete one-appointment store. -/
theorem claim3_witness :
    bookedStore.find? (fun a => a.appointment_id == "APT0001") = some bkApt ∧
    (reschedule_appointment bookedStore today0 "2026-10-12T09:00:00" "APT0001"
      bkApt.date bkApt.time).1.success = false :=
  ⟨by decide,
    claim3_reschedule_own_slot_fails bookedStore today0 "2026-10-12T09:00:00"
      "APT0001" bkApt (by decide)⟩

/-- Refutes C3 as stated: the stored appointment APT0001 sits at
2026-10-13 09:00, and rescheduling it to that same slot is rejected with
`SlotUnavailable` instead of succeeding. -/
theorem claim3_counterexample :
    bkApt.date = "2026-10-13" ∧ bkApt.time = "09:00" ∧ bkApt ∈ bookedStore ∧
    (reschedule_appointment bookedStore today0 "2026-10-12T09:00:00" "APT0001"
        "2026-10-13" "09:00").1
      = ⟨false, none, "Time slot 09:00 is not available on 2026-10-13"⟩ := by
  decide

/-- C4 (amended): `get_available_slots` excludes every time occupied by an
appointment of **any** status for that doctor and date — a slot whose only
appointments are cancelled stays blocked, because the occupancy filter
never inspects the status field. -/
theorem claim4_any_status_blocks (appointments : List Appointment) (today : Date)
    (doctor_id date_str : String) (dur : Nat) (a : Appointment)
    (ha : a ∈ appointments) (hd : a.doctor_id = doctor_id)
    (hds : a.date = date_str) :
    a.time ∉ get_available_slots appointments today doctor_id date_str dur :=
  fun hmem => mem_available_not_occupied hmem a ha hd hds rfl

/-- Witness for C4: the cancelled appointment still blocks its slot. -/
theorem claim4_witness :
    cApt.time ∉ get_available_slots cancelledStore today0 "DOC001" "2026-10-13" 30 :=
  claim4_any_status_blocks cancelledStore today0 "DOC001" "2026-10-13" 30 cApt
    (by decide) rfl rfl

/-- Refutes C4 as stated: the store holds exactly one appointment for
DOC001 on 2026-10-13, its status is cancelled, yet its time 09:00 is still
not returned as available. -/
theorem claim4_counterexample :
    cancelledStore = [cApt] ∧ cApt.status = "cancelled" ∧
    cApt.doctor_id = "DOC001" ∧ cApt.date = "2026-10-13" ∧ cApt.time = "09:00" ∧
    "09:00" ∉ get_available_slots cancelledStore today0 "DOC001" "2026-10-13" 30 := by
  decide

/-- After replacing the first id-match with a record keeping that id, the
first id-match is the replacement. -/
theorem find?_replaceFirst (apt_id : String) (u : Appointment)
    (hu : (u.appointment_id == apt_id) = true) :
    ∀ (l : List Appointment) (apt : Appointment),
      l.find? (fun a => a.appointment_id == apt_id) = some apt →
      (replaceFirst apt_id u l).find? (fun a => a.appointment_id == apt_id)
        = some u := by
  intro l
  induction l with
  | nil => intro apt h; simp [List.find?] at h
  | cons a rest ih =>
    intro apt hfind
    rw [replaceFirst]
    by_cases ha : (a.appointment_id == apt_id) = true
    · rw [if_pos ha]
      simp [List.find?, hu]
    · rw [if_neg ha]
      rw [Bool.not_eq_true] at ha
      simp only [List.find?, ha] at hfind ⊢
      exact ih apt hfind

/-- C5 (amended): cancelling an existing appointment twice succeeds both
times and the record stays cancelled, but the second call does **not**
return the unchanged record: it overwrites `cancelled_at` (and
`cancellation_reason`) with the second call's values. -/
theorem claim5_second_cancel_overwrites (appointments : List Appointment)
    (n1 n2 appointment_id r1 r2 : String) (apt : Appointment)
    (hfind : appointments.find? (fun a => a.appointment_id == appointment_id)
      = some apt) :
    (cancel_appointment appointments n1 appointment_id r1).1.success = true ∧
    (cancel_appointment (cancel_appointment appointments n1 appointment_id r1).2
        n2 appointment_id r2).1.success = true ∧
    ∃ a1,
      (cancel_appointment appointments n1 appointment_id r1).1.appointment
          = some a1 ∧
      a1.status = "cancelled" ∧
      (cancel_appointment (cancel_appointment appointments n1 appointment_id r1).2
          n2 appointment_id r2).1.appointment
        = some { a1 with cancelled_at := some n2, cancellation_reason := some r2 } := by
  have hpred := List.find?_some hfind
  have h1r : cancel_appointment appointments n1 appointment_id r1
      = (⟨true, some (mkCancelled apt n1 r1),
          "Appointment " ++ appointment_id ++ " has been cancelled"⟩,
        replaceFirst appointment_id (mkCancelled apt n1 r1) appointments) := by
    unfold cancel_appointment
    rw [hfind]
  have hfind2 : (replaceFirst appointment_id (mkCancelled apt n1 r1)
        appointments).find? (fun a => a.appointment_id == appointment_id)
      = some (mkCancelled apt n1 r1) :=
    find?_replaceFirst appointment_id (mkCancelled apt n1 r1) hpred appointments
      apt hfind
  have h2r : cancel_appointment
      (cancel_appointment appointments n1 appointment_id r1).2 n2 appointment_id r2
      = (⟨true, some (mkCancelled (mkCancelled apt n1 r1) n2 r2),
          "Appointment " ++ appointment_id ++ " has been cancelled"⟩,
        replaceFirst appointment_id (mkCancelled (mkCancelled apt n1 r1) n2 r2)
          (replaceFirst appointment_id (mkCancelled apt n1 r1) appointments)) := by
    rw [h1r]
    unfold cancel_appointment
    rw [hfind2]
  refine ⟨by rw [h1r], by rw [h2r], mkCancelled apt n1 r1, by rw [h1r], rfl, ?_⟩
  rw [h2r]
  cases apt
  rfl

/-- Witness for C5 at the concrete one-appointment store. -/
theorem claim5_witness :
    (cancel_appointment bookedStore "2026-10-12T09:00:00" "APT0001" "a").1.success
        = true ∧
    (cancel_appointment
        (cancel_appointment bookedStore "2026-10-12T09:00:00" "APT0001" "a").2
        "2026-10-12T09:05:00" "APT0001" "b").1.success = true ∧
    ∃ a1,
      (cancel_appointment bookedStore "2026-10-12T09:00:00" "APT0001"
          "a").1.appointment = some a1 ∧
      a1.status = "cancelled" ∧
      (cancel_appointment
          (cancel_appointment bookedStore "2026-10-12T09:00:00" "APT0001" "a").2
          "2026-10-12T09:05:00" "APT0001" "b").1.appointment
        = some { a1 with
            cancelled_at := some "2026-10-12T09:05:00"
            cancellation_reason := some "b" } :=
  claim5_second_cancel_overwrites bookedStore "2026-10-12T09:00:00"
    "2026-10-12T09:05:00" "APT0001" "a" "b" bkApt (by decide)

/-- Refutes C5 as stated: both cancels succeed, but the second returns a
different record (its `cancelled_at` timestamp is the second call's clock),
not the unchanged one. -/
theorem claim5_counterexample :
    (cancel_appointment bookedStore "2026-10-12T09:00:00" "APT0001" "").1.success
        = true ∧
    (cancel_appointment
        (cancel_appointment bookedStore "2026-10-12T09:00:00" "APT0001" "").2
        "2026-10-12T09:05:00" "APT0001" "").1.success = true ∧
    (cancel_appointment
        (cancel_appointment bookedStore "2026-10-12T09:00:00" "APT0001" "").2
        "2026-10-12T09:05:00" "APT0001" "").1.appointment
      ≠ (cancel_appointment bookedStore "2026-10-12T09:00:00" "APT0001"
          "").1.appointment := by
  decide


/-- C6 (amended): a second find-or-create with the identical name but a
different (non-empty) email resolves to the **same** stored patient — the
case-insensitive name match fires before any email comparison — updating
that record's email in place; no new patient id is allocated. -/
theorem claim6_same_name_resolves_same_patient (name e1 e2 ins1 ins2 : String)
    (hne2 : e2 ≠ "") (hne : e1 ≠ e2) :
    (find_or_create_patient (find_or_create_patient [] name e1 ins1).2 name e2
        ins2).1.patient_id
      = (find_or_create_patient [] name e1 ins1).1.patient_id ∧
    (find_or_create_patient (find_or_create_patient [] name e1 ins1).2 name e2
        ins2).2.length
      = (find_or_create_patient [] name e1 ins1).2.length ∧
    (find_or_create_patient (find_or_create_patient [] name e1 ins1).2 name e2
        ins2).1.email = e2 := by
  simp [find_or_create_patient, findOrCreateLoop, matchPatient, hne2, hne]

/-- Witness for C6 at concrete names and emails. -/
theorem claim6_witness :
    (find_or_create_patient (find_or_create_patient [] "Jane Doe" "a@x.com"
        "Aetna").2 "Jane Doe" "b@x.com" "Cigna").1.patient_id
      = (find_or_create_patient [] "Jane Doe" "a@x.com" "Aetna").1.patient_id ∧
    (find_or_create_patient (find_or_create_patient [] "Jane Doe" "a@x.com"
        "Aetna").2 "Jane Doe" "b@x.com" "Cigna").2.length
      = (find_or_create_patient [] "Jane Doe" "a@x.com" "Aetna").2.length ∧
    (find_or_create_patient (find_or_create_patient [] "Jane Doe" "a@x.com"
        "Aetna").2 "Jane Doe" "b@x.com" "Cigna").1.email = "b@x.com" :=
  claim6_same_name_resolves_same_patient "Jane Doe" "a@x.com" "b@x.com" "Aetna"
    "Cigna" (by decide) (by decide)

/-- Refutes C6 as stated: both invocations resolve to patient id P0001 and
the store still holds a single record — the ids are not distinct. -/
theorem claim6_counterexample :
    (find_or_create_patient [] "Jane Doe" "a@x.com" "Aetna").1.patient_id
        = "P0001" ∧
    (find_or_create_patient (find_or_create_patient [] "Jane Doe" "a@x.com"
        "Aetna").2 "Jane Doe" "b@x.com" "Aetna").1.patient_id = "P0001" ∧
    (find_or_create_patient (find_or_create_patient [] "Jane Doe" "a@x.com"
        "Aetna").2 "Jane Doe" "b@x.com" "Aetna").2.length = 1 := by
  decide

/-- C7 (amended): every returned slot is an on-the-hour start time whose
hour is below 17 and never the lunch hour 12; for durations of at most 60
minutes the appointment interval [start, start+duration) therefore never
overlaps the 12:00–13:00 lunch window (for longer durations it can — see
the counterexample). -/
theorem claim7_lunch_overlap_only_short (appointments : List Appointment)
    (today : Date) (doctor_id date_str : String) (dur : Nat) (s : String)
    (hdur : dur ≤ 60)
    (hs : s ∈ get_available_slots appointments today doctor_id date_str dur) :
    ∃ h2, s = fmtHour h2 ∧ h2 ≠ 12
      ∧ ¬(60 * h2 < 780 ∧ 720 < 60 * h2 + dur) := by
  obtain ⟨h2, rfl, hlt, hne⟩ := mem_available_hour hs
  exact ⟨h2, rfl, hne, by omega⟩

/-- Witness for C7 at a concrete 30-minute request. -/
theorem claim7_witness :
    ∃ h2, "09:00" = fmtHour h2 ∧ h2 ≠ 12
      ∧ ¬(60 * h2 < 780 ∧ 720 < 60 * h2 + 30) :=
  claim7_lunch_overlap_only_short [] today0 "DOC001" "2026-10-13" 30 "09:00"
    (by decide) (by decide)

/-- Refutes C7 as stated: with the positive 30-minute multiple 90 as the
duration, 11:00 is returned, and the interval [11:00, 12:30) overlaps the
12:00–13:00 lunch window (660 < 780 and 720 < 660 + 90). -/
theorem claim7_counterexample :
    "11:00" ∈ get_available_slots [] today0 "DOC001" "2026-10-13" 90 ∧
    "11:00" = fmtHour 11 ∧ 60 * 11 < 780 ∧ 720 < 60 * 11 + 90 := by
  decide

/-- C8: from the initial state, "Hello" yields the welcome prompt and moves
the step to `name_requested`; "My name is Jane Doe" then stores the patient
name "Jane Doe" (filler prefix stripped) and moves the step to
`appointment_type`. -/
theorem claim8_hello_then_name :
    (generate_response agentStart false "2026-10-12T10:00:00"
        "Hello").2.conv.conversation_step = some "name_requested" ∧
    (generate_response agentStart false "2026-10-12T10:00:00" "Hello").1
      = "Hello! Welcome to our medical scheduling system. I\x27m here to help you schedule an appointment. Could you please tell me your full name?" ∧
    (generate_response
        (generate_response agentStart false "2026-10-12T10:00:00" "Hello").2
        false "2026-10-12T10:01:00" "My name is Jane Doe").2.conv.patient_name
      = some "Jane Doe" ∧
    (generate_response
        (generate_response agentStart false "2026-10-12T10:00:00" "Hello").2
        false "2026-10-12T10:01:00" "My name is Jane Doe").2.conv.conversation_step
      = some "appointment_type" := by
  decide


/-- C9 (amended): when the booking attempt inside the `email_collection`
step fails, the engine replies with an apology, but the conversation state
is **not** left as it was: the supplied email is stored and the step is
advanced to `confirmation` (so the user cannot retry the step).  The
hypotheses restrict to inputs the earlier intent branches do not
intercept. -/
theorem claim9_email_step_error_mutates_state (st : AgentState)
    (now user_input : String)
    (hstep : st.conv.conversation_step = some "email_collection")
    (h1 : (analyze_user_input user_input).intent ≠ "empty")
    (h2 : (analyze_user_input user_input).intent ≠ "modify_appointment")
    (h3 : (analyze_user_input user_input).intent ≠ "schedule_appointment") :
    (generate_response st true now user_input).2.conv.conversation_step
        = some "confirmation" ∧
    (generate_response st true now user_input).2.conv.patient_email
        = some (pyStrip user_input) := by
  have b1 : ((analyze_user_input user_input).intent == "empty") = false :=
    beq_eq_false_iff_ne.mpr h1
  have b2 : ((analyze_user_input user_input).intent == "modify_appointment")
      = false := beq_eq_false_iff_ne.mpr h2
  have b3 : ((analyze_user_input user_input).intent == "schedule_appointment")
      = false := beq_eq_false_iff_ne.mpr h3
  unfold generate_response rule_based_response
  simp +decide [b1, b2, b3, hstep]
  constructor <;> (split <;> simp)

/-- Witness for C9 at the concrete `email_collection` fixture. -/
theorem claim9_witness :
    (generate_response agentEC true "2026-10-12T10:00:00"
        "jane@x.com").2.conv.conversation_step = some "confirmation" ∧
    (generate_response agentEC true "2026-10-12T10:00:00"
        "jane@x.com").2.conv.patient_email = some (pyStrip "jane@x.com") :=
  claim9_email_step_error_mutates_state agentEC "2026-10-12T10:00:00" "jane@x.com"
    (by decide) (by decide) (by decide) (by decide)

/-- Refutes C9 as stated: with the booking failure injected in the
`email_collection` step, the engine apologizes but the conversation state
changes — the step advances from `email_collection` to `confirmation`
instead of being left as it was. -/
theorem claim9_counterexample :
    agentEC.conv.conversation_step = some "email_collection" ∧
    (generate_response agentEC true "2026-10-12T10:00:00"
        "jane@x.com").2.conv.conversation_step = some "confirmation" ∧
    (generate_response agentEC true "2026-10-12T10:00:00" "jane@x.com").2.conv
      ≠ agentEC.conv := by
  decide

/-- C10: `get_available_slots` is total by construction in this embedding
(the `try/except` of the source catches every error), and a date string the
`%Y-%m-%d` parse rejects yields the empty list before any other work. -/
theorem claim10_unparseable_date_empty (appointments : List Appointment)
    (today : Date) (doctor_id date_str : String) (dur : Nat)
    (h : parseDateYMD date_str = none) :
    get_available_slots appointments today doctor_id date_str dur = [] := by
  unfold get_available_slots
  rw [h]

/-- Witness for C10 at a concrete unparseable date string. -/
theorem claim10_witness :
    parseDateYMD "not-a-date" = none ∧
    get_available_slots [] today0 "DOC001" "not-a-date" 30 = [] :=
  ⟨by decide, claim10_unparseable_date_empty [] today0 "DOC001" "not-a-date" 30
    (by decide)⟩


end MedSched
